import Mathlib

/-!
Shallow embedding of the platform-agnostic core of the `winit` windowing
library (files `src/monitor.rs`, `src/application.rs`), together with proofs
of the specified properties of the monitor / video-mode data model, the
`ApplicationHandler` contract and its forwarding wrappers, and the wake-up
coalescing channel.
-/

namespace Winit

/-- Rust `std::num::NonZeroU16`: a 16-bit unsigned integer that is never zero.
Embedded as a natural number with both bounds carried in the subtype. -/
def NonZeroU16 := { n : Nat // 0 < n ∧ n < 65536 }

instance : DecidableEq NonZeroU16 :=
  inferInstanceAs (DecidableEq { n : Nat // 0 < n ∧ n < 65536 })

/-- Projection to the underlying number of a `NonZeroU16`. -/
def NonZeroU16.val (n : NonZeroU16) : Nat := Subtype.val n

/-- `dpi::PhysicalSize<u32>`: a width/height pair in physical pixels. -/
structure PhysicalSize where
  width : Nat
  height : Nat
deriving DecidableEq, Repr

/-- `dpi::PhysicalPosition<i32>`: a signed position in physical pixels. -/
structure PhysicalPosition where
  x : Int
  y : Int
deriving DecidableEq, Repr

/-- `VideoMode` from `src/monitor.rs`: physical size, optional bit depth and
optional refresh rate in millihertz, the optional fields stored as
`Option<NonZeroU16>`. -/
structure VideoMode where
  size : PhysicalSize
  bit_depth : Option NonZeroU16
  refresh_rate_millihertz : Option NonZeroU16

/-- The derived `PartialEq`/`Eq` on `VideoMode`: field-wise structural
equality of all three fields. -/
def VideoMode.beq (a b : VideoMode) : Bool :=
  a.size == b.size && a.bit_depth == b.bit_depth
    && a.refresh_rate_millihertz == b.refresh_rate_millihertz

/-- `impl fmt::Display for VideoMode`: renders
`"{}x{} {}{}"` where the third piece is `"@ {rate} mHz "` when the refresh
rate is present (empty otherwise) and the fourth is `"({bit_depth} bpp)"`
when the bit depth is present (empty otherwise). -/
def VideoMode.display (m : VideoMode) : String :=
  toString m.size.width ++ "x" ++ toString m.size.height ++ " "
    ++ (match m.refresh_rate_millihertz with
        | some rate => "@ " ++ toString rate.val ++ " mHz "
        | none => "")
    ++ (match m.bit_depth with
        | some d => "(" ++ toString d.val ++ " bpp)"
        | none => "")

/-- The state a `MonitorHandleProvider` trait object exposes through its
methods: the native id plus the descriptive attributes. The scale factor is
an `f64` in Rust; its numeric semantics are irrelevant here (it is never
inspected by equality), so it is carried as an opaque bit pattern. -/
structure MonitorHandleProvider where
  native_id : Nat
  name : Option String
  position : Option PhysicalPosition
  scale_factor_bits : Nat
  current_video_mode : Option VideoMode
  video_modes : List VideoMode

/-- `impl PartialEq for dyn MonitorHandleProvider`: compares the native ids
only. -/
def MonitorHandleProvider.beq (a b : MonitorHandleProvider) : Bool :=
  a.native_id == b.native_id

/-- `MonitorHandle` from `src/monitor.rs`: a shared handle wrapping an
`Arc<dyn MonitorHandleProvider>`. -/
structure MonitorHandle where
  provider : MonitorHandleProvider

/-- `impl PartialEq for MonitorHandle`: delegates to the provider
comparison. -/
def MonitorHandle.beq (a b : MonitorHandle) : Bool :=
  MonitorHandleProvider.beq a.provider b.provider

/-- `Fullscreen` from `src/monitor.rs`: exclusive fullscreen on a monitor
with a specific video mode, or borderless fullscreen on an optional
monitor. -/
inductive Fullscreen where
  | Exclusive (monitor : MonitorHandle) (mode : VideoMode)
  | Borderless (monitor : Option MonitorHandle)

/-- Whether a `Fullscreen` value is the `Exclusive` variant. -/
def Fullscreen.isExclusive : Fullscreen → Bool
  | .Exclusive _ _ => true
  | .Borderless _ => false

/-- The monitor payload of a `Fullscreen` value: `Exclusive` always carries
one, `Borderless` carries it optionally. -/
def Fullscreen.monitor : Fullscreen → Option MonitorHandle
  | .Exclusive h _ => some h
  | .Borderless o => o

/-- Modelled from the spec: hashing of a `MonitorHandle` — no `Hash`
implementation exists under `src/` (`monitor.rs` derives only
`Debug, Clone` and implements `PartialEq`/`Eq`); §4.3 of the spec requires
that hashing "depend solely on native id, never on mutable descriptive
fields", so the hash is a function of the native id alone (the concrete
mixing performed by a hasher is irrelevant to the property). -/
def MonitorHandle.hashVal (h : MonitorHandle) : Nat :=
  h.provider.native_id

/-- `ApplicationHandler` from `src/application.rs`, embedded as a record of
its ten callback methods over a handler state `A`. The argument types
(`ActiveEventLoop`, `StartCause`, `WindowId`, `WindowEvent`, `DeviceId`,
`DeviceEvent`) are defined outside `src/` and are never inspected by this
core, so they are type parameters. A method takes the current handler state
and its arguments and returns the updated state — the observable effect on
the handler. Every method except `window_event` has the source's default
body `let _ = args;`, which ignores all arguments and leaves the state
unchanged; `window_event` has no default. Field order follows the trait
declaration order. -/
structure ApplicationHandler (A EL SC WId WE DId DE : Type) where
  new_events : A → EL → SC → A := fun a _ _ => a
  resumed : A → EL → A := fun a _ => a
  proxy_wake_up : A → EL → A := fun a _ => a
  window_event : A → EL → WId → WE → A
  device_event : A → EL → DId → DE → A := fun a _ _ _ => a
  about_to_wait : A → EL → A := fun a _ => a
  suspended : A → EL → A := fun a _ => a
  destroy_surfaces : A → EL → A := fun a _ => a
  recreate_surfaces : A → EL → A := fun a _ => a
  memory_warning : A → EL → A := fun a _ => a

variable {A EL SC WId WE DId DE : Type}

/-- A handler built by supplying only the required `window_event` method;
every other method is left at its trait default. -/
def minimalHandler (we : A → EL → WId → WE → A) :
    ApplicationHandler A EL SC WId WE DId DE :=
  { window_event := we }

/-- A Rust `&mut A` exclusive borrow of a handler state `A`: dereferencing
it yields the borrowed state itself. -/
abbrev MutRef (A : Type) : Type := A

/-- A Rust `Box<A>` uniquely owning a handler state `A`: dereferencing it
yields the owned state itself. -/
abbrev Box (A : Type) : Type := A

/-- `impl<A: ?Sized + ApplicationHandler> ApplicationHandler for &mut A`
from `src/application.rs`: every one of the ten methods dereferences the
borrow (`(**self)`) and forwards the call with all arguments unchanged. -/
def mutRefHandler (inst : ApplicationHandler A EL SC WId WE DId DE) :
    ApplicationHandler (MutRef A) EL SC WId WE DId DE where
  new_events := fun a el cause => inst.new_events a el cause
  resumed := fun a el => inst.resumed a el
  proxy_wake_up := fun a el => inst.proxy_wake_up a el
  window_event := fun a el wid ev => inst.window_event a el wid ev
  device_event := fun a el did ev => inst.device_event a el did ev
  about_to_wait := fun a el => inst.about_to_wait a el
  suspended := fun a el => inst.suspended a el
  destroy_surfaces := fun a el => inst.destroy_surfaces a el
  recreate_surfaces := fun a el => inst.recreate_surfaces a el
  memory_warning := fun a el => inst.memory_warning a el

/-- `impl<A: ?Sized + ApplicationHandler> ApplicationHandler for Box<A>`
from `src/application.rs`: every one of the ten methods dereferences the
box (`(**self)`) and forwards the call with all arguments unchanged. -/
def boxHandler (inst : ApplicationHandler A EL SC WId WE DId DE) :
    ApplicationHandler (Box A) EL SC WId WE DId DE where
  new_events := fun a el cause => inst.new_events a el cause
  resumed := fun a el => inst.resumed a el
  proxy_wake_up := fun a el => inst.proxy_wake_up a el
  window_event := fun a el wid ev => inst.window_event a el wid ev
  device_event := fun a el did ev => inst.device_event a el did ev
  about_to_wait := fun a el => inst.about_to_wait a el
  suspended := fun a el => inst.suspended a el
  destroy_surfaces := fun a el => inst.destroy_surfaces a el
  recreate_surfaces := fun a el => inst.recreate_surfaces a el
  memory_warning := fun a el => inst.memory_warning a el

/-- Modelled from the spec: the cross-thread wake-up coalescing channel —
its implementation lives in the event-loop backends, not under `src/`
(only the documentation of `ApplicationHandler::proxy_wake_up` describes
it). Per §4.2/§9 it is "a flag, not a counter or queue": a single pending
boolean; raising a wake-up sets it. -/
structure WakeChannel where
  pending : Bool

/-- Modelled from the spec: `EventLoopProxy::wake_up()` sets the pending
flag, from any thread. -/
def WakeChannel.wake_up (_c : WakeChannel) : WakeChannel := ⟨true⟩

/-- `n` successive wake-up requests raised before the loop consumes the
signal. -/
def WakeChannel.raiseMany : Nat → WakeChannel → WakeChannel
  | 0, c => c
  | n + 1, c => WakeChannel.raiseMany n (WakeChannel.wake_up c)

/-- Modelled from the spec: one dispatch cycle consuming the wake signal —
it clears the pending flag and delivers the `proxy_wake_up` callback
exactly when the flag was set; the result's second component counts the
callbacks delivered in the cycle. -/
def WakeChannel.consume (c : WakeChannel) : WakeChannel × Nat :=
  (⟨false⟩, if c.pending then 1 else 0)

/-- The video mode `1920×1080, 32 bpp, 60000 mHz` with all fields present. -/
def mode1920Full : VideoMode :=
  ⟨⟨1920, 1080⟩, some ⟨32, by decide⟩, some ⟨60000, by decide⟩⟩

/-- The video mode `1920×1080` with both optional fields absent. -/
def mode1920Bare : VideoMode :=
  ⟨⟨1920, 1080⟩, none, none⟩

/- ======================== Theorems ======================== -/

/-- Characterization of the derived `VideoMode` equality: field-wise. -/
theorem video_mode_beq_iff (a b : VideoMode) :
    VideoMode.beq a b = true ↔
      a.size = b.size ∧ a.bit_depth = b.bit_depth
        ∧ a.refresh_rate_millihertz = b.refresh_rate_millihertz := by
  simp [VideoMode.beq, and_assoc]

/-- Raising at least one wake-up leaves the channel pending, no matter how
many further requests follow. -/
theorem raiseMany_of_pending (n : Nat) :
    WakeChannel.raiseMany n ⟨true⟩ = (⟨true⟩ : WakeChannel) := by
  induction n with
  | zero => rfl
  | succ k ih => simpa [WakeChannel.raiseMany, WakeChannel.wake_up] using ih

/-- C1: two monitor handles compare equal if and only if their native ids
are equal; no descriptive attribute (name, position, scale factor, video
modes) plays any role in the comparison. -/
theorem monitor_handle_beq_iff_native_id (a b : MonitorHandle) :
    MonitorHandle.beq a b = true ↔
      a.provider.native_id = b.provider.native_id := by
  simp [MonitorHandle.beq, MonitorHandleProvider.beq]

/-- C3: display-formatting the all-fields-present mode
`1920×1080, 32 bpp, 60000 mHz` yields exactly
`"1920x1080 @ 60000 mHz (32 bpp)"`, and the same size with both optional
fields absent yields exactly `"1920x1080 "` with one trailing space. -/
theorem video_mode_display_concrete :
    mode1920Full.display = "1920x1080 @ 60000 mHz (32 bpp)"
      ∧ mode1920Bare.display = "1920x1080 " := by
  constructor <;> rfl

/-- C4: the derived `VideoMode` equality is an equivalence relation, holds
iff all three fields match exactly (including presence/absence of the
optional fields), and in particular a mode with absent refresh rate differs
from the otherwise identical mode with refresh rate 60000 mHz. -/
theorem video_mode_beq_equivalence :
    Equivalence (fun a b : VideoMode => VideoMode.beq a b = true)
      ∧ (∀ a b : VideoMode, VideoMode.beq a b = true ↔
          a.size = b.size ∧ a.bit_depth = b.bit_depth
            ∧ a.refresh_rate_millihertz = b.refresh_rate_millihertz)
      ∧ VideoMode.beq ⟨⟨1920, 1080⟩, none, none⟩
          ⟨⟨1920, 1080⟩, none, some ⟨60000, by decide⟩⟩ = false := by
  refine ⟨⟨?_, ?_, ?_⟩, video_mode_beq_iff, by decide⟩
  · intro a
    exact (video_mode_beq_iff a a).mpr ⟨rfl, rfl, rfl⟩
  · intro a b hab
    obtain ⟨h1, h2, h3⟩ := (video_mode_beq_iff a b).mp hab
    exact (video_mode_beq_iff b a).mpr ⟨h1.symm, h2.symm, h3.symm⟩
  · intro a b c hab hbc
    obtain ⟨h1, h2, h3⟩ := (video_mode_beq_iff a b).mp hab
    obtain ⟨g1, g2, g3⟩ := (video_mode_beq_iff b c).mp hbc
    exact (video_mode_beq_iff a c).mpr ⟨h1.trans g1, h2.trans g2, h3.trans g3⟩

/-- C2: for every handler instance and every one of the ten contract
methods, calling the method through the exclusive-borrow wrapper
(`&mut A`) or the uniquely-owning wrapper (`Box<A>`) produces exactly the
same resulting handler state as calling it on the unwrapped handler, with
all arguments forwarded unchanged. -/
theorem handler_wrappers_forward_transparently
    (inst : ApplicationHandler A EL SC WId WE DId DE) :
    (∀ a el cause, (mutRefHandler inst).new_events a el cause
        = inst.new_events a el cause)
      ∧ (∀ a el, (mutRefHandler inst).resumed a el = inst.resumed a el)
      ∧ (∀ a el, (mutRefHandler inst).proxy_wake_up a el
          = inst.proxy_wake_up a el)
      ∧ (∀ a el wid ev, (mutRefHandler inst).window_event a el wid ev
          = inst.window_event a el wid ev)
      ∧ (∀ a el did ev, (mutRefHandler inst).device_event a el did ev
          = inst.device_event a el did ev)
      ∧ (∀ a el, (mutRefHandler inst).about_to_wait a el
          = inst.about_to_wait a el)
      ∧ (∀ a el, (mutRefHandler inst).suspended a el = inst.suspended a el)
      ∧ (∀ a el, (mutRefHandler inst).destroy_surfaces a el
          = inst.destroy_surfaces a el)
      ∧ (∀ a el, (mutRefHandler inst).recreate_surfaces a el
          = inst.recreate_surfaces a el)
      ∧ (∀ a el, (mutRefHandler inst).memory_warning a el
          = inst.memory_warning a el)
      ∧ (∀ a el cause, (boxHandler inst).new_events a el cause
          = inst.new_events a el cause)
      ∧ (∀ a el, (boxHandler inst).resumed a el = inst.resumed a el)
      ∧ (∀ a el, (boxHandler inst).proxy_wake_up a el
          = inst.proxy_wake_up a el)
      ∧ (∀ a el wid ev, (boxHandler inst).window_event a el wid ev
          = inst.window_event a el wid ev)
      ∧ (∀ a el did ev, (boxHandler inst).device_event a el did ev
          = inst.device_event a el did ev)
      ∧ (∀ a el, (boxHandler inst).about_to_wait a el
          = inst.about_to_wait a el)
      ∧ (∀ a el, (boxHandler inst).suspended a el = inst.suspended a el)
      ∧ (∀ a el, (boxHandler inst).destroy_surfaces a el
          = inst.destroy_surfaces a el)
      ∧ (∀ a el, (boxHandler inst).recreate_surfaces a el
          = inst.recreate_surfaces a el)
      ∧ (∀ a el, (boxHandler inst).memory_warning a el
          = inst.memory_warning a el) := by
  refine ⟨?_, ?_, ?_, ?_, ?_, ?_, ?_, ?_, ?_, ?_,
    ?_, ?_, ?_, ?_, ?_, ?_, ?_, ?_, ?_, ?_⟩ <;> (intros; rfl)

/-- C5: building a handler by supplying only the required `window_event`
method yields exactly the handler whose `window_event` is the supplied one
and whose nine remaining methods are each the trait's default no-op,
ignoring all arguments and returning the handler state unchanged. -/
theorem window_event_only_required_method (we : A → EL → WId → WE → A) :
    (minimalHandler we : ApplicationHandler A EL SC WId WE DId DE) =
      { window_event := we,
        new_events := fun a _ _ => a,
        resumed := fun a _ => a,
        proxy_wake_up := fun a _ => a,
        device_event := fun a _ _ _ => a,
        about_to_wait := fun a _ => a,
        suspended := fun a _ => a,
        destroy_surfaces := fun a _ => a,
        recreate_surfaces := fun a _ => a,
        memory_warning := fun a _ => a } := rfl

/-- C6: within one dispatch cycle, any number of wake-up requests raised
before the loop consumes the signal results in at most one delivered
`proxy_wake_up` callback, and any positive number of requests delivers
exactly as many callbacks as a single request does (they collapse). -/
theorem proxy_wake_up_coalesced_per_cycle (n : Nat) (c : WakeChannel) :
    ((WakeChannel.raiseMany n c).consume).2 ≤ 1
      ∧ ((WakeChannel.raiseMany (n + 1) c).consume).2
          = ((WakeChannel.wake_up c).consume).2 := by
  constructor
  · unfold WakeChannel.consume
    split <;> simp
  · show ((WakeChannel.raiseMany n (WakeChannel.wake_up c)).consume).2 = _
    rw [WakeChannel.wake_up, raiseMany_of_pending]

/-- C7: monitor-handle hashing depends solely on the native id: handles
with equal native ids — equivalently, handles that compare equal — hash to
the same value regardless of their descriptive attributes. -/
theorem monitor_hash_depends_only_on_native_id (a b : MonitorHandle) :
    (a.provider.native_id = b.provider.native_id →
        MonitorHandle.hashVal a = MonitorHandle.hashVal b)
      ∧ (MonitorHandle.beq a b = true →
          MonitorHandle.hashVal a = MonitorHandle.hashVal b) := by
  constructor
  · intro h
    simpa [MonitorHandle.hashVal] using h
  · intro h
    have hid := (monitor_handle_beq_iff_native_id a b).mp h
    simpa [MonitorHandle.hashVal] using hid

/-- Witness for C7: two handles sharing native id 7 but differing in every
descriptive attribute hash identically. -/
theorem monitor_hash_depends_only_on_native_id_witness :
    MonitorHandle.hashVal ⟨⟨7, some "DP-1", some ⟨0, 0⟩, 10, none, []⟩⟩
        = MonitorHandle.hashVal ⟨⟨7, none, some ⟨1920, 0⟩, 20,
            some mode1920Bare, [mode1920Bare]⟩⟩
      ∧ MonitorHandle.hashVal ⟨⟨7, some "DP-1", some ⟨0, 0⟩, 10, none, []⟩⟩
          = MonitorHandle.hashVal ⟨⟨7, none, some ⟨1920, 0⟩, 20,
              some mode1920Bare, [mode1920Bare]⟩⟩ :=
  ⟨(monitor_hash_depends_only_on_native_id
      ⟨⟨7, some "DP-1", some ⟨0, 0⟩, 10, none, []⟩⟩
      ⟨⟨7, none, some ⟨1920, 0⟩, 20, some mode1920Bare, [mode1920Bare]⟩⟩).1
        rfl,
    (monitor_hash_depends_only_on_native_id
      ⟨⟨7, some "DP-1", some ⟨0, 0⟩, 10, none, []⟩⟩
      ⟨⟨7, none, some ⟨1920, 0⟩, 20, some mode1920Bare, [mode1920Bare]⟩⟩).2
        (by decide)⟩

/-- C8: `Fullscreen` is exactly the tagged choice of two variants —
`Exclusive` carrying a required monitor handle and a required video mode,
and `Borderless` carrying an optional monitor handle — with distinct tags
and payloads stored unchanged: construction is total and performs no
validation of monitor/mode compatibility, so any handle/mode pair yields an
`Exclusive` value carrying exactly that pair. -/
theorem fullscreen_tagged_choice :
    (∀ f : Fullscreen, (∃ h m, f = Fullscreen.Exclusive h m)
        ∨ (∃ o, f = Fullscreen.Borderless o))
      ∧ (∀ h m h2 m2, Fullscreen.Exclusive h m = Fullscreen.Exclusive h2 m2
          ↔ h = h2 ∧ m = m2)
      ∧ (∀ o o2, (Fullscreen.Borderless o = Fullscreen.Borderless o2)
          ↔ o = o2)
      ∧ (∀ h m, (Fullscreen.Exclusive h m).isExclusive = true
          ∧ (Fullscreen.Exclusive h m).monitor = some h)
      ∧ (∀ o, (Fullscreen.Borderless o).isExclusive = false
          ∧ (Fullscreen.Borderless o).monitor = o) := by
  refine ⟨?_, ?_, ?_, ?_, ?_⟩
  · intro f
    cases f with
    | Exclusive h m => exact Or.inl ⟨h, m, rfl⟩
    | Borderless o => exact Or.inr ⟨o, rfl⟩
  · intro h m h2 m2
    simp
  · intro o o2
    simp
  · intro h m
    exact ⟨rfl, rfl⟩
  · intro o
    exact ⟨rfl, rfl⟩

/-- C9: whenever the optional bit depth or refresh rate of a video mode is
present, its value is strictly positive and at most 65535 (it is a non-zero
16-bit integer); refresh rates above 65535 mHz are unrepresentable. -/
theorem video_mode_optional_fields_bounded (m : VideoMode) :
    (∀ d, m.bit_depth = some d → 0 < d.val ∧ d.val ≤ 65535)
      ∧ (∀ r, m.refresh_rate_millihertz = some r →
          0 < r.val ∧ r.val ≤ 65535) := by
  constructor
  · intro d _
    obtain ⟨hp, hl⟩ := Subtype.prop d
    exact ⟨hp, Nat.lt_succ_iff.mp hl⟩
  · intro r _
    obtain ⟨hp, hl⟩ := Subtype.prop r
    exact ⟨hp, Nat.lt_succ_iff.mp hl⟩

/-- Witness for C9: the bit depth 32 and refresh rate 60000 of the concrete
mode `1920×1080, 32 bpp, 60000 mHz` are positive and at most 65535. -/
theorem video_mode_optional_fields_bounded_witness :
    (0 < NonZeroU16.val ⟨32, by decide⟩
        ∧ NonZeroU16.val ⟨32, by decide⟩ ≤ 65535)
      ∧ (0 < NonZeroU16.val ⟨60000, by decide⟩
          ∧ NonZeroU16.val ⟨60000, by decide⟩ ≤ 65535) :=
  ⟨(video_mode_optional_fields_bounded mode1920Full).1 ⟨32, by decide⟩ rfl,
    (video_mode_optional_fields_bounded mode1920Full).2 ⟨60000, by decide⟩
      rfl⟩

/-- C10: display-formatting a mode with refresh rate absent and bit depth
`d` yields exactly `WIDTHxHEIGHT (d bpp)` — one space after the height, no
rate segment; a mode with refresh rate `r` and bit depth absent yields
exactly `WIDTHxHEIGHT @ r mHz ` with a trailing space; and for every mode
the single space after the height is a literal always present in the
output. -/
theorem video_mode_display_shape (s : PhysicalSize) (d r : NonZeroU16) :
    VideoMode.display ⟨s, some d, none⟩
        = toString s.width ++ "x" ++ toString s.height ++ " "
            ++ ("(" ++ toString d.val ++ " bpp)")
      ∧ VideoMode.display ⟨s, none, some r⟩
          = toString s.width ++ "x" ++ toString s.height ++ " "
              ++ ("@ " ++ toString r.val ++ " mHz ")
      ∧ ∀ m : VideoMode, ∃ rest, VideoMode.display m
          = toString m.size.width ++ "x" ++ toString m.size.height ++ " "
              ++ rest := by
  refine ⟨?_, ?_, ?_⟩
  · simp [VideoMode.display, String.append_empty, String.append_assoc]
  · simp [VideoMode.display, String.append_empty, String.append_assoc]
  · intro m
    refine ⟨(match m.refresh_rate_millihertz with
        | some rate => "@ " ++ toString rate.val ++ " mHz "
        | none => "")
      ++ (match m.bit_depth with
        | some dd => "(" ++ toString dd.val ++ " bpp)"
        | none => ""), ?_⟩
    simp [VideoMode.display, String.append_assoc]

end Winit
